import Mathlib

/-
Verification development for the agent-packager module plan logic
(agent_packager/packager.py and agent_packager/utils.py).

The embedding models the module-policy core: plan merging
(_merge_modules), post-install validation (_validate / check_installed),
and the install/exclusion orchestration inside create.  External
collaborators (virtualenv creation, pip, tar, HTTP download) are modelled
by their observable effects: install/uninstall events issued by create,
and the raw text of the pip freeze listing consumed by check_installed.
Path templating, logging and the external tools own failure exits do not
affect the module policy and are not modelled.
-/

namespace AgentPackager

/-- An observable package action issued against the virtualenv: a call to
pip install with a module spec, or a call to pip uninstall with a module
name. -/
inductive Event where
  | install (spec : String)
  | uninstall (name : String)
deriving DecidableEq, Repr

/-- How a run of create ends: a fatal sys.exit with a code, or normal
completion. -/
inductive Outcome where
  | exited (code : Nat)
  | completed
deriving DecidableEq, Repr

/-- Result of a modelled create run: the ordered list of package events it
issued, and how it ended. -/
structure CreateResult where
  events : List Event
  outcome : Outcome
deriving DecidableEq, Repr

/-- The yaml configuration keys that drive the module policy
(packager.py reads them via config.get and containment tests; an absent
key is modelled as none or as an empty list). -/
structure Config where
  core_modules : List (String × String) := []
  additional_modules : List String := []
  cloudify_agent_module : Option String := none
  cloudify_agent_version : Option String := none
deriving DecidableEq, Repr

/-- The modules dictionary built in create lines 219-222 and filled by
_merge_modules: the core dict, the additional list, and the agent entry
(none models the key being absent; create initialises it to some ""). -/
structure Modules where
  core : List (String × String)
  additional : List String
  agent : Option String
deriving DecidableEq, Repr

/-- The slice of the outside world create consults: platform detection,
filesystem checks on the venv directory and the destination tar, and the
pip freeze listings observed after the agent install (used by the exclusion
pass) and at validation time. -/
structure Env where
  distroOk : Bool := true
  venvIsDir : Bool := false
  tarIsFile : Bool := false
  tarExistsOther : Bool := false
  listingAfterAgent : String := ""
  listingAtValidation : String := ""
deriving DecidableEq, Repr

/-- packager.py EXTERNAL_MODULES. -/
def EXTERNAL_MODULES : List String := ["celery==3.0.24"]

/-- packager.py MODULES_LIST: the fixed ordered catalog of core module
slots (the four commented-out installer-plugin slots are not present). -/
def MODULES_LIST : List String :=
  ["cloudify_rest_client",
   "cloudify_plugins_common",
   "cloudify_script_plugin",
   "cloudify_diamond_plugin"]

/-- packager.py MANDATORY_MODULES (documentation-only in the source; no
code path reads it). -/
def MANDATORY_MODULES : List String :=
  ["cloudify_plugins_common", "cloudify_rest_client"]

/-- packager.py DEFAULT_CLOUDIFY_AGENT_URL applied to a version string via
str.format. -/
def DEFAULT_CLOUDIFY_AGENT_URL (version : String) : String :=
  "https://github.com/nir0s/cloudify-agent/archive/" ++ version ++ ".tar.gz"

/-- Python dict assignment d[k] = v on an association list: overwrite in
place when the key exists, append otherwise. -/
def dictInsert (d : List (String × String)) (k v : String) :
    List (String × String) :=
  if (d.lookup k).isSome then
    d.map (fun p => if p.1 = k then (k, v) else p)
  else d ++ [(k, v)]

/-- Python dict.update: insert every pair of upd into d in order. -/
def dictUpdate (d upd : List (String × String)) : List (String × String) :=
  upd.foldl (fun acc p => dictInsert acc p.1 p.2) d

/-- packager.py get_module_name: module.replace of every underscore by a
hyphen (str.replace with a one-character pattern rewrites each character
occurrence). -/
def get_module_name (module : String) : String :=
  String.mk (module.toList.map (fun c => if c = '_' then '-' else c))

/-- utils.py check_installed: runs pip freeze and tests
re.search(module, stdout.lower()).  The declared name is used verbatim as
the pattern and only the listing is lowercased; for the module names in
play (no regex metacharacters) re.search is an anywhere-substring test,
modelled as list infix on the character level. -/
def check_installed (module listing : String) : Bool :=
  decide (module.toList <:+: listing.toList.map Char.toLower)

/-- packager.py _merge_modules lines 77-97: overlay the configured
core_modules onto the core dict, resolve the agent entry (explicit module
wins over version-templated url; neither present is a fatal sys.exit(3)),
then append the additional modules in configuration order. -/
def _merge_modules (modules : Modules) (config : Config) :
    Except Nat Modules :=
  let additional_modules := config.additional_modules
  let modules1 : Modules :=
    { modules with core := dictUpdate modules.core config.core_modules }
  match config.cloudify_agent_module with
  | some m =>
      Except.ok { modules1 with
        agent := some m,
        additional := modules1.additional ++ additional_modules }
  | none =>
      match config.cloudify_agent_version with
      | some v =>
          Except.ok { modules1 with
            agent := some (DEFAULT_CLOUDIFY_AGENT_URL v),
            additional := modules1.additional ++ additional_modules }
      | none => Except.error 3

/-- The inner check closure of _validate lines 111-117: normalise the
declared name and append it to the failed list when check_installed does
not find it. -/
def check (module listing : String) (failed : List String) : List String :=
  let module_name := get_module_name module
  if check_installed module_name listing then failed
  else failed ++ [module_name]

/-- packager.py _validate lines 109-125, the failed list it accumulates:
every core entry whose value is truthy and not the exclude sentinel, every
additional entry, and the fixed name cloudify-agent whenever the agent key
is present. -/
def _validate_failed (modules : Modules) (listing : String) : List String :=
  let failed : List String := []
  let failed := modules.core.foldl
    (fun failed p =>
      if p.2 ≠ "" ∧ p.2 ≠ "exclude" then check p.1 listing failed
      else failed) failed
  let failed := modules.additional.foldl
    (fun failed m => check m listing failed) failed
  let failed :=
    if modules.agent.isSome then check "cloudify-agent" listing failed
    else failed
  failed

/-- packager.py _validate lines 127-130: sys.exit(10) exactly when the
failed list is non-empty. -/
def _validate (modules : Modules) (listing : String) : Except Nat Unit :=
  if _validate_failed modules listing = [] then Except.ok ()
  else Except.error 10

/-- The spec data model for a slot source: Unspecified, Excluded, or a
Location string. -/
inductive ModuleSource where
  | Unspecified
  | Excluded
  | Location (s : String)
deriving DecidableEq, Repr

/-- Reading of a configured value string as a ModuleSource, following how
the code consumes values: a falsy value behaves as Unspecified, the
sentinel "exclude" as Excluded, anything else as a Location. -/
def interpSource (s : String) : ModuleSource :=
  if s = "" then ModuleSource.Unspecified
  else if s = "exclude" then ModuleSource.Excluded
  else ModuleSource.Location s

/-- The source a core dict resolves for a slot, following the lookups in
create and _validate: an absent key behaves as Unspecified. -/
def sourceOf (core : List (String × String)) (m : String) : ModuleSource :=
  match core.lookup m with
  | none => ModuleSource.Unspecified
  | some s => interpSource s

/-- One iteration of the core install loop, create lines 241-253: a truthy
value equal to the exclude sentinel is skipped, any other truthy value is
installed, a falsy or absent value is skipped (left to arrive with the
agent module). -/
def coreInstallStep (core : List (String × String)) (module : String) :
    Option Event :=
  match core.lookup module with
  | some s =>
      if s ≠ "" ∧ s = "exclude" then none
      else if s ≠ "" then some (Event.install s)
      else none
  | none => none

/-- The install events of the core catalog pass, in MODULES_LIST order. -/
def installCoreEvents (core : List (String × String)) : List Event :=
  MODULES_LIST.filterMap (coreInstallStep core)

/-- One iteration of the exclusion pass, create lines 268-273: uninstall
the normalised name when the configured value equals the exclude sentinel
and check_installed sees the module in the listing. -/
def exclusionStep (core : List (String × String)) (listing : String)
    (module : String) : Option Event :=
  let module_name := get_module_name module
  if core.lookup module = some "exclude" ∧
      check_installed module_name listing then
    some (Event.uninstall module_name)
  else none

/-- The uninstall events of the exclusion pass, in MODULES_LIST order. -/
def exclusionEvents (core : List (String × String)) (listing : String) :
    List Event :=
  MODULES_LIST.filterMap (exclusionStep core listing)

/-- packager.py create lines 165-289, restricted to the module policy: the
guard exits (platform detection, existing venv without force, existing
destination tar), plan merging, the dry-run exit, the four install passes,
the exclusion pass, and validation.  Archive creation and venv removal
issue no package events and their external failure exits are out of
modelled scope. -/
def create (config : Config) (force dry no_validate : Bool) (env : Env) :
    CreateResult :=
  if env.distroOk = false then ⟨[], Outcome.exited 1⟩
  else if env.venvIsDir = true ∧ force = false then ⟨[], Outcome.exited 2⟩
  else if (env.tarIsFile = true ∧ force = false) ∨ env.tarExistsOther = true
    then ⟨[], Outcome.exited 9⟩
  else
    match _merge_modules ⟨[], [], some ""⟩ config with
    | Except.error code => ⟨[], Outcome.exited code⟩
    | Except.ok modules =>
      if dry then ⟨[], Outcome.exited 0⟩
      else
        let core := modules.core
        let ev := EXTERNAL_MODULES.foldl
          (fun acc m => acc ++ [Event.install m]) []
        let ev := MODULES_LIST.foldl
          (fun acc m => acc ++ (coreInstallStep core m).toList) ev
        let ev := modules.additional.foldl
          (fun acc m => acc ++ [Event.install m]) ev
        let ev := match modules.agent with
          | some a => if a ≠ "" then ev ++ [Event.install a] else ev
          | none => ev
        let ev := MODULES_LIST.foldl
          (fun acc m =>
            acc ++ (exclusionStep core env.listingAfterAgent m).toList) ev
        if no_validate = false ∧
            _validate_failed modules env.listingAtValidation ≠ [] then
          ⟨ev, Outcome.exited 10⟩
        else ⟨ev, Outcome.completed⟩

/-- Split a character list on a separator character. -/
def splitOnChar (c : Char) : List Char → List (List Char)
  | [] => [[]]
  | x :: xs =>
    let r := splitOnChar c xs
    if x = c then [] :: r
    else
      match r with
      | [] => [[x]]
      | y :: ys => (x :: y) :: ys

/-- Modelled from the spec: the external listInstalled collaborator
returns a set of names; the raw pip freeze text renders each installed
package as one name==version line, so the names the listing text denotes
are the per-line segments before the first equals sign. -/
def freezeNames (listing : String) : List String :=
  (splitOnChar '\n' listing.toList).map
    (fun l => String.mk (l.takeWhile (fun c => c ≠ '=')))

/-- The optional missing name one check call contributes. -/
def checkOpt (listing module : String) : Option String :=
  let module_name := get_module_name module
  if check_installed module_name listing then none else some module_name

/-- The optional missing name one core dict entry contributes to the
failed list of _validate. -/
def coreCheckOpt (listing : String) (p : String × String) : Option String :=
  if p.2 ≠ "" ∧ p.2 ≠ "exclude" then checkOpt listing p.1 else none

lemma foldl_append_opt {α β : Type} (f : α → Option β) :
    ∀ (l : List α) (acc : List β),
      l.foldl (fun a x => a ++ (f x).toList) acc = acc ++ l.filterMap f := by
  intro l
  induction l with
  | nil => intro acc; simp
  | cons x xs ih =>
    intro acc
    simp only [List.foldl_cons, List.filterMap_cons]
    rw [ih]
    cases h : f x <;> simp

lemma foldl_append_one {α β : Type} (g : α → β) :
    ∀ (l : List α) (acc : List β),
      l.foldl (fun a x => a ++ [g x]) acc = acc ++ l.map g := by
  intro l
  induction l with
  | nil => intro acc; simp
  | cons x xs ih =>
    intro acc
    simp only [List.foldl_cons, List.map_cons]
    rw [ih]
    simp

lemma validate_core_foldl (listing : String) :
    ∀ (l : List (String × String)) (acc : List String),
      l.foldl
        (fun failed p =>
          if p.2 ≠ "" ∧ p.2 ≠ "exclude" then check p.1 listing failed
          else failed) acc
      = acc ++ l.filterMap (coreCheckOpt listing) := by
  intro l
  induction l with
  | nil => intro acc; simp
  | cons x xs ih =>
    intro acc
    simp only [List.foldl_cons, List.filterMap_cons]
    rw [ih]
    by_cases h1 : x.2 ≠ "" ∧ x.2 ≠ "exclude"
    · by_cases h2 : check_installed (get_module_name x.1) listing
      · simp [h1, h2, check, coreCheckOpt, checkOpt]
      · simp [h1, h2, check, coreCheckOpt, checkOpt]
    · simp [h1, coreCheckOpt]

lemma validate_additional_foldl (listing : String) :
    ∀ (l : List String) (acc : List String),
      l.foldl (fun failed m => check m listing failed) acc
      = acc ++ l.filterMap (checkOpt listing) := by
  intro l
  induction l with
  | nil => intro acc; simp
  | cons x xs ih =>
    intro acc
    simp only [List.foldl_cons, List.filterMap_cons]
    rw [ih]
    by_cases h2 : check_installed (get_module_name x) listing
    · simp [h2, check, checkOpt]
    · simp [h2, check, checkOpt]

/-- The failed list of _validate, reshaped into its three contributions:
core entries, additional entries, and the agent check. -/
lemma validate_failed_eq (modules : Modules) (listing : String) :
    _validate_failed modules listing
      = modules.core.filterMap (coreCheckOpt listing)
        ++ modules.additional.filterMap (checkOpt listing)
        ++ (if modules.agent.isSome then
              (checkOpt listing "cloudify-agent").toList
            else []) := by
  unfold _validate_failed
  dsimp only
  rw [validate_core_foldl, validate_additional_foldl]
  by_cases h : modules.agent.isSome
  · by_cases h2 : check_installed (get_module_name "cloudify-agent") listing
    · simp [h, h2, check, checkOpt]
    · simp [h, h2, check, checkOpt]
  · simp [h]

lemma lookup_append (k : String) :
    ∀ (a b : List (String × String)),
      (a ++ b).lookup k
        = match a.lookup k with
          | some v => some v
          | none => b.lookup k := by
  intro a b
  induction a with
  | nil => simp
  | cons x xs ih =>
    by_cases h : k = x.1
    · simp [List.lookup, h]
    · simp only [List.cons_append, List.lookup]
      have hbeq : (k == x.1) = false := by
        simp [h]
      simp [hbeq, ih]

/-- dict.update into an empty dict whose update keys are distinct gives
back the update list itself. -/
lemma dictUpdate_nil (upd : List (String × String))
    (hnd : (upd.map Prod.fst).Nodup) : dictUpdate [] upd = upd := by
  suffices h : ∀ (upd acc : List (String × String)),
      (∀ p ∈ upd, acc.lookup p.1 = none) → (upd.map Prod.fst).Nodup →
      dictUpdate acc upd = acc ++ upd by
    simpa using h upd [] (by simp) hnd
  intro upd
  induction upd with
  | nil => intro acc _ _; simp [dictUpdate]
  | cons x xs ih =>
    intro acc hnone hnd2
    have hx : acc.lookup x.1 = none := hnone x (by simp)
    have step : dictInsert acc x.1 x.2 = acc ++ [x] := by
      simp [dictInsert, hx]
    have hrest : ∀ p ∈ xs, (acc ++ [x]).lookup p.1 = none := by
      intro p hp
      rw [lookup_append]
      have h1 : acc.lookup p.1 = none := hnone p (by simp [hp])
      have hne : p.1 ≠ x.1 := by
        simp only [List.map_cons, List.nodup_cons] at hnd2
        intro he
        exact hnd2.1 (he ▸ List.mem_map_of_mem Prod.fst hp)
      have hbeq : (p.1 == x.1) = false := by simp [hne]
      simp [h1, List.lookup, hbeq]
    have hnd3 : (xs.map Prod.fst).Nodup := by
      simp only [List.map_cons, List.nodup_cons] at hnd2
      exact hnd2.2
    have : dictUpdate (acc ++ [x]) xs = (acc ++ [x]) ++ xs := ih (acc ++ [x]) hrest hnd3
    simp only [dictUpdate, List.foldl_cons] at *
    rw [step, this]
    simp

/-- Membership in an association list with distinct keys determines the
lookup result. -/
lemma lookup_of_mem_nodup :
    ∀ (l : List (String × String)) (k v : String),
      (l.map Prod.fst).Nodup → (k, v) ∈ l → l.lookup k = some v := by
  intro l
  induction l with
  | nil => intro k v _ h; simp at h
  | cons x xs ih =>
    intro k v hnd hmem
    simp only [List.map_cons, List.nodup_cons] at hnd
    rcases List.mem_cons.mp hmem with h | h
    · rw [← h]
      simp [List.lookup]
    · have hne : k ≠ x.1 := by
        intro he
        exact hnd.1 (he ▸ List.mem_map_of_mem Prod.fst h)
      have hbeq : (k == x.1) = false := by simp [hne]
      simp only [List.lookup, hbeq]
      exact ih k v hnd.2 h

/-- Permuting an association list with distinct keys does not change any
lookup. -/
lemma lookup_perm :
    ∀ {l₁ l₂ : List (String × String)}, l₁.Perm l₂ →
      (l₁.map Prod.fst).Nodup → ∀ k, l₁.lookup k = l₂.lookup k := by
  intro l₁ l₂ h
  induction h with
  | nil => intro _ _; rfl
  | cons x hp ih =>
    intro hnd k
    simp only [List.map_cons, List.nodup_cons] at hnd
    by_cases he : k = x.1
    · have hbeq : (k == x.1) = true := by simp [he]
      simp [List.lookup, hbeq]
    · have hbeq : (k == x.1) = false := by simp [he]
      simp only [List.lookup, hbeq]
      exact ih hnd.2 k
  | swap x y l =>
    intro hnd k
    have hyx : y.1 ≠ x.1 := by
      simp only [List.map_cons, List.nodup_cons, List.mem_cons,
        List.mem_map] at hnd
      intro he
      exact hnd.1 (Or.inl he)
    by_cases h1 : k = y.1
    · have hb1 : (k == y.1) = true := by simp [h1]
      have hb2 : (k == x.1) = false := by
        simp only [beq_eq_false_iff_ne, ne_eq]
        intro he
        exact hyx (h1 ▸ he)
      simp [List.lookup, hb1, hb2]
    · have hb1 : (k == y.1) = false := by simp [h1]
      by_cases h2 : k = x.1
      · have hb2 : (k == x.1) = true := by simp [h2]
        simp [List.lookup, hb1, hb2]
      · have hb2 : (k == x.1) = false := by simp [h2]
        simp [List.lookup, hb1, hb2]
  | trans hp1 hp2 ih1 ih2 =>
    intro hnd k
    have hnd2 := (hp1.map Prod.fst).nodup_iff.mp hnd
    rw [ih1 hnd k, ih2 hnd2 k]

lemma interpSource_location_iff (s : String) :
    (∃ loc, interpSource s = ModuleSource.Location loc) ↔
      (s ≠ "" ∧ s ≠ "exclude") := by
  by_cases h1 : s = ""
  · simp [interpSource, h1]
  · by_cases h2 : s = "exclude"
    · simp [interpSource, h1, h2]
    · simp [interpSource, h1, h2]

lemma checkOpt_eq_some_iff (listing module name : String) :
    checkOpt listing module = some name ↔
      (name = get_module_name module
       ∧ check_installed name listing = false) := by
  unfold checkOpt
  dsimp only
  by_cases hi : check_installed (get_module_name module) listing = true
  · rw [if_pos hi]
    constructor
    · intro h
      exact absurd h (by simp)
    · rintro ⟨hn, hf⟩
      rw [hn, hi] at hf
      exact absurd hf (by simp)
  · rw [if_neg hi]
    constructor
    · intro h
      have hn := Option.some.inj h
      refine ⟨hn.symm, ?_⟩
      rw [hn.symm]
      simpa using hi
    · rintro ⟨hn, _⟩
      rw [hn]

lemma coreCheckOpt_eq_some_iff (listing : String) (p : String × String)
    (name : String) :
    coreCheckOpt listing p = some name ↔
      ((p.2 ≠ "" ∧ p.2 ≠ "exclude")
       ∧ name = get_module_name p.1
       ∧ check_installed name listing = false) := by
  unfold coreCheckOpt
  by_cases hc : p.2 ≠ "" ∧ p.2 ≠ "exclude"
  · rw [if_pos hc]
    rw [checkOpt_eq_some_iff]
    constructor
    · rintro ⟨hn, hf⟩
      exact ⟨hc, hn, hf⟩
    · rintro ⟨_, hn, hf⟩
      exact ⟨hn, hf⟩
  · rw [if_neg hc]
    constructor
    · intro h
      exact absurd h (by simp)
    · rintro ⟨hc2, _, _⟩
      exact absurd hc2 hc

/-- The hyphen-normalised names of the four catalog slots are pairwise
distinct, so a normalised name determines its slot. -/
lemma gmn_inj_catalog :
    ∀ m1 ∈ MODULES_LIST, ∀ m2 ∈ MODULES_LIST,
      get_module_name m1 = get_module_name m2 → m1 = m2 := by decide

/-- A successful merge starting from the empty core dict fills core with
exactly the configured core_modules entries (dict-like distinct keys). -/
lemma merge_core_eq (config : Config) (modules : Modules)
    (hnd : (config.core_modules.map Prod.fst).Nodup)
    (hmerge : _merge_modules ⟨[], [], some ""⟩ config
        = Except.ok modules) :
    modules.core = config.core_modules := by
  unfold _merge_modules at hmerge
  cases hmod : config.cloudify_agent_module with
  | some a =>
    rw [hmod] at hmerge
    dsimp only at hmerge
    have h := Except.ok.inj hmerge
    rw [← h]
    exact dictUpdate_nil _ hnd
  | none =>
    rw [hmod] at hmerge
    dsimp only at hmerge
    cases hver : config.cloudify_agent_version with
    | some v =>
      rw [hver] at hmerge
      dsimp only at hmerge
      have h := Except.ok.inj hmerge
      rw [← h]
      exact dictUpdate_nil _ hnd
    | none =>
      rw [hver] at hmerge
      exact absurd hmerge (by simp)

/-- When the guard exits do not fire and the plan merges, the events of a
non-dry create run are the concatenation of the five passes in source
order. -/
lemma create_events_decomposition
    (config : Config) (force no_validate : Bool) (env : Env)
    (modules : Modules)
    (hmerge : _merge_modules ⟨[], [], some ""⟩ config = Except.ok modules)
    (hdistro : env.distroOk = true)
    (hvenv : env.venvIsDir = true → force = true)
    (htar : ¬ ((env.tarIsFile = true ∧ force = false) ∨
               env.tarExistsOther = true)) :
    (create config force false no_validate env).events =
      EXTERNAL_MODULES.map Event.install
      ++ installCoreEvents modules.core
      ++ modules.additional.map Event.install
      ++ (match modules.agent with
          | some a => if a ≠ "" then [Event.install a] else []
          | none => [])
      ++ exclusionEvents modules.core env.listingAfterAgent := by
  have hv2 : ¬ (env.venvIsDir = true ∧ force = false) := by
    rintro ⟨ha, hb⟩
    rw [hvenv ha] at hb
    exact Bool.true_eq_false.mp hb
  have hd2 : ¬ (env.distroOk = false) := by
    rw [hdistro]
    exact Bool.true_eq_false.mp
  unfold create
  rw [if_neg hd2, if_neg hv2, if_neg htar, hmerge]
  dsimp only
  rw [if_neg Bool.false_ne_true]
  simp only [foldl_append_one, foldl_append_opt]
  rw [show MODULES_LIST.filterMap (coreInstallStep modules.core)
        = installCoreEvents modules.core from rfl,
    show MODULES_LIST.filterMap
          (exclusionStep modules.core env.listingAfterAgent)
        = exclusionEvents modules.core env.listingAfterAgent from rfl]
  cases hag : modules.agent with
  | none =>
    dsimp only
    split
    · simp
    · simp
  | some a =>
    dsimp only
    split <;> by_cases hae : a = "" <;> simp [hae]

/-- Claim C1, counterexample to the claim as stated: with an empty
core_modules mapping and a valid agent version, plan resolution succeeds
but the resulting core mapping is empty, so the fixed catalog slot
cloudify_rest_client is not present in it. -/
theorem c1_core_keys_counterexample :
    _merge_modules ⟨[], [], some ""⟩
        { core_modules := [], additional_modules := [],
          cloudify_agent_module := none,
          cloudify_agent_version := some "1.0" }
      = Except.ok ⟨[], [],
          some "https://github.com/nir0s/cloudify-agent/archive/1.0.tar.gz"⟩
    ∧ ([] : List (String × String)).lookup "cloudify_rest_client" = none
    ∧ "cloudify_rest_client" ∈ MODULES_LIST :=
  ⟨rfl, rfl, by decide⟩

/-- Claim C1, amended: for every configuration with a valid agent
reference (and dict-like distinct core_modules keys), plan resolution
succeeds and the resulting core mapping holds exactly the configured
core_modules entries; every fixed catalog slot nonetheless resolves, via
the lookup used by execution and validation, to the configured override
when one is present and to Unspecified otherwise. -/
theorem c1_core_defaults_amended (config : Config)
    (hnd : (config.core_modules.map Prod.fst).Nodup)
    (hagent : config.cloudify_agent_module.isSome = true ∨
              config.cloudify_agent_version.isSome = true) :
    ∃ modules, _merge_modules ⟨[], [], some ""⟩ config = Except.ok modules
      ∧ modules.core = config.core_modules
      ∧ (∀ m ∈ MODULES_LIST,
          sourceOf modules.core m = sourceOf config.core_modules m)
      ∧ (∀ m ∈ MODULES_LIST, config.core_modules.lookup m = none →
          sourceOf modules.core m = ModuleSource.Unspecified) := by
  have hcore : dictUpdate [] config.core_modules = config.core_modules :=
    dictUpdate_nil config.core_modules hnd
  have hdefault : ∀ m ∈ MODULES_LIST, config.core_modules.lookup m = none →
      sourceOf config.core_modules m = ModuleSource.Unspecified := by
    intro m _ hm
    unfold sourceOf
    rw [hm]
  cases hmod : config.cloudify_agent_module with
  | some a =>
    refine ⟨⟨dictUpdate [] config.core_modules,
             [] ++ config.additional_modules, some a⟩, ?_, ?_, ?_, ?_⟩
    · unfold _merge_modules
      rw [hmod]
    · exact hcore
    · intro m _
      dsimp only
      rw [hcore]
    · intro m hm hnone
      dsimp only
      rw [hcore]
      exact hdefault m hm hnone
  | none =>
    cases hver : config.cloudify_agent_version with
    | some v =>
      refine ⟨⟨dictUpdate [] config.core_modules,
               [] ++ config.additional_modules,
               some (DEFAULT_CLOUDIFY_AGENT_URL v)⟩, ?_, ?_, ?_, ?_⟩
      · unfold _merge_modules
        rw [hmod, hver]
      · exact hcore
      · intro m _
        dsimp only
        rw [hcore]
      · intro m hm hnone
        dsimp only
        rw [hcore]
        exact hdefault m hm hnone
    | none =>
      rw [hmod] at hagent
      rw [hver] at hagent
      rcases hagent with h | h <;> exact absurd h (by decide)

/-- Claim C1, witness: the amended theorem applied to a concrete
configuration that excludes the script plugin and gives an explicit agent
module. -/
theorem c1_core_defaults_witness :
    ∃ modules, _merge_modules ⟨[], [], some ""⟩
        { core_modules := [("cloudify_script_plugin", "exclude")],
          additional_modules := [],
          cloudify_agent_module := some "http://x/agent.tar.gz",
          cloudify_agent_version := none }
      = Except.ok modules
      ∧ modules.core = [("cloudify_script_plugin", "exclude")]
      ∧ (∀ m ∈ MODULES_LIST,
          sourceOf modules.core m
            = sourceOf [("cloudify_script_plugin", "exclude")] m)
      ∧ (∀ m ∈ MODULES_LIST,
          ([("cloudify_script_plugin", "exclude")] :
              List (String × String)).lookup m = none →
          sourceOf modules.core m = ModuleSource.Unspecified) :=
  c1_core_defaults_amended
    { core_modules := [("cloudify_script_plugin", "exclude")],
      additional_modules := [],
      cloudify_agent_module := some "http://x/agent.tar.gz",
      cloudify_agent_version := none }
    (by decide) (by decide)

/-- Claim C2, counterexample to the claim as stated: the declared name
cloudify_script_plugin is matched by an installed listing of
cloudify-script-plugin, but uppercasing letters of the declared name
changes the outcome, because only the listing is lowercased before the
search: validation passes for the lowercase declaration and fails for the
uppercase one against the same listing. -/
theorem c2_case_sensitivity_counterexample :
    _validate_failed ⟨[], ["cloudify_script_plugin"], none⟩
        "cloudify-script-plugin==1.1" = []
    ∧ _validate_failed ⟨[], ["Cloudify_Script_Plugin"], none⟩
        "cloudify-script-plugin==1.1" = ["Cloudify-Script-Plugin"]
    ∧ check_installed (get_module_name "Cloudify_Script_Plugin")
        "cloudify-script-plugin==1.1" = false :=
  ⟨by decide, by decide, by decide⟩

/-- Claim C2, amended: validation normalises underscores to hyphens in
the declared name and lowercases the installed listing before an
anywhere-substring search, so a module declared cloudify_script_plugin is
matched by an installed listing containing cloudify-script-plugin, and
the match outcome is unchanged by changing the case of letters in the
listing; it is not insensitive to case in the declared name. -/
theorem c2_name_comparison_amended :
    (∀ declared l₁ l₂ : String,
        l₁.toList.map Char.toLower = l₂.toList.map Char.toLower →
        check_installed (get_module_name declared) l₁
          = check_installed (get_module_name declared) l₂)
    ∧ (∀ pre post : String,
        check_installed (get_module_name "cloudify_script_plugin")
          (pre ++ "cloudify-script-plugin" ++ post) = true) := by
  constructor
  · intro declared l₁ l₂ h
    unfold check_installed
    rw [h]
  · intro pre post
    rw [show get_module_name "cloudify_script_plugin"
          = "cloudify-script-plugin" from by decide]
    unfold check_installed
    apply decide_eq_true
    have hmid : List.map Char.toLower "cloudify-script-plugin".data
        = "cloudify-script-plugin".data := by decide
    refine ⟨pre.toList.map Char.toLower, post.toList.map Char.toLower, ?_⟩
    simp [String.toList, String.data_append, List.map_append, hmid]

/-- Claim C2, witness: the amended theorem applied at a concrete listing
case change and a concrete listing containing the hyphenated name. -/
theorem c2_name_comparison_witness :
    check_installed (get_module_name "cloudify_diamond_plugin")
        "CLOUDIFY-DIAMOND-PLUGIN==1"
      = check_installed (get_module_name "cloudify_diamond_plugin")
        "cloudify-diamond-plugin==1"
    ∧ check_installed (get_module_name "cloudify_script_plugin")
        ("x==1\n" ++ "cloudify-script-plugin" ++ "==2") = true :=
  ⟨c2_name_comparison_amended.1 "cloudify_diamond_plugin"
      "CLOUDIFY-DIAMOND-PLUGIN==1" "cloudify-diamond-plugin==1" (by decide),
   c2_name_comparison_amended.2 "x==1\n" "==2"⟩

/-- Claim C9: the installed-membership check reports a declared name as
installed exactly when it occurs anywhere as a substring of the lowercased
listing text (the regex pattern is metacharacter-free for every name in
play); consequently a name occurring inside another installed package
line is reported installed, as the concrete instance shows: rest-client
names no installed package of the listing, yet is reported present. -/
theorem c9_substring_match :
    (∀ module listing : String,
        check_installed module listing = true ↔
          module.toList <:+: listing.toList.map Char.toLower)
    ∧ (∀ module other ver : String,
        module.toList <:+: other.toList.map Char.toLower →
        check_installed module (other ++ "==" ++ ver) = true)
    ∧ check_installed "rest-client" "cloudify-rest-client==3.0" = true
    ∧ "rest-client" ∉ freezeNames "cloudify-rest-client==3.0" := by
  refine ⟨?_, ?_, by decide, by decide⟩
  · intro module listing
    unfold check_installed
    exact decide_eq_true_iff
  · intro module other ver h
    unfold check_installed
    apply decide_eq_true
    obtain ⟨s, t, hst⟩ := h
    have heq : List.map Char.toLower "==".data = "==".data := by decide
    refine ⟨s, t ++ "==".data ++ ver.toList.map Char.toLower, ?_⟩
    simp only [String.toList] at hst
    simp [String.toList, String.data_append, List.map_append, heq, ← hst]

/-- Claim C9, witness: the substring consequence applied at a concrete
name that is a proper substring of an installed package name. -/
theorem c9_substring_match_witness :
    check_installed "script" ("cloudify-script-plugin" ++ "==" ++ "1")
      = true :=
  c9_substring_match.2.1 "script" "cloudify-script-plugin" "1" (by decide)

/-- Claim C3: a name is in the failed list of validation exactly when it
is the normalised name of a core entry whose source is a Location (so
Excluded and Unspecified entries are not checked), or of an additional
entry, or is the fixed agent name cloudify-agent with the agent key
present, and the name is not found in the listing; the list is collected
in one pass over all entries, and the run exits fatally with code 10 if
and only if the failed list is non-empty. -/
theorem c3_validate_characterization :
    ∀ (modules : Modules) (listing name : String),
      (name ∈ _validate_failed modules listing ↔
        ((∃ p ∈ modules.core,
            (∃ loc, interpSource p.2 = ModuleSource.Location loc)
            ∧ name = get_module_name p.1
            ∧ check_installed name listing = false)
         ∨ (∃ a ∈ modules.additional,
              name = get_module_name a
              ∧ check_installed name listing = false)
         ∨ (modules.agent.isSome = true ∧ name = "cloudify-agent"
            ∧ check_installed name listing = false)))
      ∧ (_validate modules listing = Except.error 10 ↔
          _validate_failed modules listing ≠ []) := by
  intro modules listing name
  have hca : get_module_name "cloudify-agent" = "cloudify-agent" := by
    decide
  constructor
  · rw [validate_failed_eq]
    by_cases hag : modules.agent.isSome = true
    · rw [if_pos hag]
      rcases hq : checkOpt listing "cloudify-agent" with _ | w
      · have hfound : check_installed "cloudify-agent" listing = true := by
          unfold checkOpt at hq
          dsimp only at hq
          rw [hca] at hq
          by_cases hi : check_installed "cloudify-agent" listing = true
          · exact hi
          · rw [if_neg hi] at hq
            exact absurd hq (by simp)
        simp only [Option.toList_none, List.append_nil, List.mem_append,
          List.mem_filterMap, coreCheckOpt_eq_some_iff,
          checkOpt_eq_some_iff, interpSource_location_iff]
        constructor
        · rintro (⟨p, hp, hc, hn, hf⟩ | ⟨a, ha, hn, hf⟩)
          · exact Or.inl ⟨p, hp, hc, hn, hf⟩
          · exact Or.inr (Or.inl ⟨a, ha, hn, hf⟩)
        · rintro (⟨p, hp, hc, hn, hf⟩ | ⟨a, ha, hn, hf⟩ | ⟨_, hn, hf⟩)
          · exact Or.inl ⟨p, hp, hc, hn, hf⟩
          · exact Or.inr ⟨a, ha, hn, hf⟩
          · rw [hn, hfound] at hf
            exact absurd hf (by simp)
      · obtain ⟨hw, hwf⟩ :=
          (checkOpt_eq_some_iff listing "cloudify-agent" w).mp hq
        simp only [Option.toList_some, List.mem_append,
          List.mem_singleton, List.mem_filterMap,
          coreCheckOpt_eq_some_iff, checkOpt_eq_some_iff,
          interpSource_location_iff]
        constructor
        · rintro ((⟨p, hp, hc, hn, hf⟩ | ⟨a, ha, hn, hf⟩) | hn)
          · exact Or.inl ⟨p, hp, hc, hn, hf⟩
          · exact Or.inr (Or.inl ⟨a, ha, hn, hf⟩)
          · refine Or.inr (Or.inr ⟨hag, ?_, ?_⟩)
            · rw [hn, hw, hca]
            · rw [hn]
              exact hwf
        · rintro (⟨p, hp, hc, hn, hf⟩ | ⟨a, ha, hn, hf⟩ | ⟨_, hn, hf⟩)
          · exact Or.inl (Or.inl ⟨p, hp, hc, hn, hf⟩)
          · exact Or.inl (Or.inr ⟨a, ha, hn, hf⟩)
          · refine Or.inr ?_
            rw [hn]
            rw [hw, hca]
    · rw [if_neg hag]
      simp only [List.append_nil, List.mem_append, List.mem_filterMap,
        coreCheckOpt_eq_some_iff, checkOpt_eq_some_iff,
        interpSource_location_iff]
      constructor
      · rintro (⟨p, hp, hc, hn, hf⟩ | ⟨a, ha, hn, hf⟩)
        · exact Or.inl ⟨p, hp, hc, hn, hf⟩
        · exact Or.inr (Or.inl ⟨a, ha, hn, hf⟩)
      · rintro (⟨p, hp, hc, hn, hf⟩ | ⟨a, ha, hn, hf⟩ | ⟨hsome, _, _⟩)
        · exact Or.inl ⟨p, hp, hc, hn, hf⟩
        · exact Or.inr ⟨a, ha, hn, hf⟩
        · exact absurd hsome hag
  · by_cases h : _validate_failed modules listing = [] <;>
      simp [_validate, h]

/-- Claim C4: a slot whose configured source is the exclude sentinel is
never installed by the catalog pass (its value, the string exclude, never
appears as an install event there); the exclusion pass uninstalls the
normalised slot name exactly when the slot is configured exclude and
check_installed sees it in the listing taken after the agent install; and
in a full create run the exclusion events come after all install events,
in particular after the agent install. -/
theorem c4_exclusion_semantics :
    (∀ core : List (String × String),
        Event.install "exclude" ∉ installCoreEvents core)
    ∧ (∀ (core : List (String × String)) (listing m : String),
        m ∈ MODULES_LIST →
        (Event.uninstall (get_module_name m) ∈ exclusionEvents core listing
          ↔ (core.lookup m = some "exclude"
             ∧ check_installed (get_module_name m) listing = true)))
    ∧ (∀ (config : Config) (force no_validate : Bool) (env : Env)
         (modules : Modules),
        _merge_modules ⟨[], [], some ""⟩ config = Except.ok modules →
        env.distroOk = true → (env.venvIsDir = true → force = true) →
        ¬ ((env.tarIsFile = true ∧ force = false) ∨
           env.tarExistsOther = true) →
        ∃ pre, (create config force false no_validate env).events
            = pre ++ exclusionEvents modules.core env.listingAfterAgent
          ∧ (∀ a, modules.agent = some a → a ≠ "" →
              Event.install a ∈ pre)) := by
  refine ⟨?_, ?_, ?_⟩
  · intro core h
    unfold installCoreEvents at h
    rw [List.mem_filterMap] at h
    obtain ⟨m, _, hstep⟩ := h
    unfold coreInstallStep at hstep
    cases hlk : core.lookup m with
    | none =>
      rw [hlk] at hstep
      exact absurd hstep (by simp)
    | some s =>
      rw [hlk] at hstep
      dsimp only at hstep
      split_ifs at hstep with h1 h2
      have hs := Event.install.inj (Option.some.inj hstep)
      exact h1 ⟨h2, hs⟩
  · intro core listing m hm
    constructor
    · intro h
      unfold exclusionEvents at h
      rw [List.mem_filterMap] at h
      obtain ⟨m2, hm2, hstep⟩ := h
      unfold exclusionStep at hstep
      dsimp only at hstep
      split_ifs at hstep with hcond
      have hnm : get_module_name m2 = get_module_name m :=
        Event.uninstall.inj (Option.some.inj hstep)
      have hmm : m2 = m := gmn_inj_catalog m2 hm2 m hm hnm
      rw [hmm] at hcond
      exact hcond
    · rintro ⟨h1, h2⟩
      unfold exclusionEvents
      rw [List.mem_filterMap]
      refine ⟨m, hm, ?_⟩
      unfold exclusionStep
      dsimp only
      rw [if_pos ⟨h1, h2⟩]
  · intro config force no_validate env modules hmerge hd hv ht
    have hdec := create_events_decomposition config force no_validate env
      modules hmerge hd hv ht
    refine ⟨EXTERNAL_MODULES.map Event.install
        ++ installCoreEvents modules.core
        ++ modules.additional.map Event.install
        ++ (match modules.agent with
            | some a => if a ≠ "" then [Event.install a] else []
            | none => []), ?_, ?_⟩
    · rw [hdec]
    · intro a hag ha
      rw [hag]
      simp [ha]

/-- Claim C4, witness: the uninstall condition applied to a concrete
excluded slot present in the listing taken after the agent install. -/
theorem c4_exclusion_semantics_witness :
    Event.uninstall (get_module_name "cloudify_diamond_plugin") ∈
        exclusionEvents [("cloudify_diamond_plugin", "exclude")]
          "cloudify-diamond-plugin==1"
      ↔ (([("cloudify_diamond_plugin", "exclude")] :
            List (String × String)).lookup "cloudify_diamond_plugin"
            = some "exclude"
         ∧ check_installed (get_module_name "cloudify_diamond_plugin")
             "cloudify-diamond-plugin==1" = true) :=
  c4_exclusion_semantics.2.1 [("cloudify_diamond_plugin", "exclude")]
    "cloudify-diamond-plugin==1" "cloudify_diamond_plugin" (by decide)

/-- Claim C5: a non-dry create run that reaches the install phase issues
its install events in this strict order: every external module first,
then the catalog slots in fixed MODULES_LIST order, then the additional
entries in configuration order, then the agent module; and the catalog
pass depends on the core mapping only through lookups, so its events do
not change when the core_modules entries are reordered (dict-like
distinct keys). -/
theorem c5_install_order :
    (∀ (config : Config) (force no_validate : Bool) (env : Env)
       (modules : Modules),
        _merge_modules ⟨[], [], some ""⟩ config = Except.ok modules →
        env.distroOk = true → (env.venvIsDir = true → force = true) →
        ¬ ((env.tarIsFile = true ∧ force = false) ∨
           env.tarExistsOther = true) →
        (create config force false no_validate env).events =
          EXTERNAL_MODULES.map Event.install
          ++ MODULES_LIST.filterMap (coreInstallStep modules.core)
          ++ modules.additional.map Event.install
          ++ (match modules.agent with
              | some a => if a ≠ "" then [Event.install a] else []
              | none => [])
          ++ exclusionEvents modules.core env.listingAfterAgent)
    ∧ (∀ core₁ core₂ : List (String × String),
        (∀ k, core₁.lookup k = core₂.lookup k) →
        installCoreEvents core₁ = installCoreEvents core₂)
    ∧ (∀ core₁ core₂ : List (String × String),
        core₁.Perm core₂ → (core₁.map Prod.fst).Nodup →
        installCoreEvents core₁ = installCoreEvents core₂) := by
  have key : ∀ core₁ core₂ : List (String × String),
      (∀ k, core₁.lookup k = core₂.lookup k) →
      installCoreEvents core₁ = installCoreEvents core₂ := by
    intro core₁ core₂ h
    have hf : coreInstallStep core₁ = coreInstallStep core₂ := by
      funext m
      unfold coreInstallStep
      rw [h m]
    unfold installCoreEvents
    rw [hf]
  refine ⟨?_, key, ?_⟩
  · intro config force no_validate env modules hmerge hd hv ht
    exact create_events_decomposition config force no_validate env modules
      hmerge hd hv ht
  · intro core₁ core₂ hperm hnd
    exact key core₁ core₂ (lookup_perm hperm hnd)

/-- Claim C5, witness: the order equation applied to a concrete run with
one excluded slot, one located slot, one additional module and a
version-templated agent, then evaluated: externals, catalog slot,
additional, agent, exclusion, in that order. -/
theorem c5_install_order_witness :
    (create { core_modules := [("cloudify_diamond_plugin", "exclude"),
                               ("cloudify_script_plugin", "http://sp")],
              additional_modules := ["extra"],
              cloudify_agent_module := none,
              cloudify_agent_version := some "1.0" }
        false false true
        { distroOk := true, venvIsDir := false, tarIsFile := false,
          tarExistsOther := false,
          listingAfterAgent := "cloudify-diamond-plugin==1",
          listingAtValidation := "" }).events
      = [Event.install "celery==3.0.24",
         Event.install "http://sp",
         Event.install "extra",
         Event.install
           "https://github.com/nir0s/cloudify-agent/archive/1.0.tar.gz",
         Event.uninstall "cloudify-diamond-plugin"] := by
  rw [c5_install_order.1
    { core_modules := [("cloudify_diamond_plugin", "exclude"),
                       ("cloudify_script_plugin", "http://sp")],
      additional_modules := ["extra"],
      cloudify_agent_module := none,
      cloudify_agent_version := some "1.0" }
    false true
    { distroOk := true, venvIsDir := false, tarIsFile := false,
      tarExistsOther := false,
      listingAfterAgent := "cloudify-diamond-plugin==1",
      listingAtValidation := "" }
    ⟨[("cloudify_diamond_plugin", "exclude"),
      ("cloudify_script_plugin", "http://sp")], ["extra"],
      some "https://github.com/nir0s/cloudify-agent/archive/1.0.tar.gz"⟩
    rfl rfl (by decide) (by decide)]
  decide

/-- A configuration with neither agent key makes _merge_modules exit
fatally with code 3. -/
lemma merge_missing_agent (config : Config)
    (hm : config.cloudify_agent_module = none)
    (hv : config.cloudify_agent_version = none) :
    _merge_modules ⟨[], [], some ""⟩ config = Except.error 3 := by
  unfold _merge_modules
  dsimp only
  rw [hm, hv]

/-- A create run whose guard checks pass but whose configuration lacks
both agent keys exits with code 3 before issuing any event. -/
lemma create_missing_agent_exit (config : Config)
    (force dry no_validate : Bool) (env : Env)
    (hm : config.cloudify_agent_module = none)
    (hv : config.cloudify_agent_version = none)
    (hd : env.distroOk = true)
    (hvenv : env.venvIsDir = true → force = true)
    (ht : ¬ ((env.tarIsFile = true ∧ force = false) ∨
             env.tarExistsOther = true)) :
    create config force dry no_validate env = ⟨[], Outcome.exited 3⟩ := by
  have hv2 : ¬ (env.venvIsDir = true ∧ force = false) := by
    rintro ⟨ha, hb⟩
    rw [hvenv ha] at hb
    exact Bool.true_eq_false.mp hb
  have hd2 : ¬ (env.distroOk = false) := by
    rw [hd]
    exact Bool.true_eq_false.mp
  unfold create
  rw [if_neg hd2, if_neg hv2, if_neg ht,
    merge_missing_agent config hm hv]

/-- Claim C6: a configuration lacking both cloudify_agent_module and
cloudify_agent_version makes plan resolution exit fatally with the
configuration-error code 3, and a create run with such a configuration
(whose earlier guard checks pass) ends with that same exit having issued
no install event. -/
theorem c6_missing_agent_config (config : Config)
    (hm : config.cloudify_agent_module = none)
    (hv : config.cloudify_agent_version = none) :
    _merge_modules ⟨[], [], some ""⟩ config = Except.error 3
    ∧ ∀ (force dry no_validate : Bool) (env : Env),
        env.distroOk = true → (env.venvIsDir = true → force = true) →
        ¬ ((env.tarIsFile = true ∧ force = false) ∨
           env.tarExistsOther = true) →
        create config force dry no_validate env
          = ⟨[], Outcome.exited 3⟩ := by
  refine ⟨merge_missing_agent config hm hv, ?_⟩
  intro force dry no_validate env hd hvenv ht
  exact create_missing_agent_exit config force dry no_validate env
    hm hv hd hvenv ht

/-- Claim C6, witness: the empty configuration with the default
environment exits with code 3 and no events. -/
theorem c6_missing_agent_config_witness :
    create { } false false false { } = ⟨[], Outcome.exited 3⟩ :=
  (c6_missing_agent_config { } rfl rfl).2 false false false { }
    rfl (fun h => h) (by decide)

/-- Claim C7: the four fatal conditions map to pairwise distinct exit
codes: an existing virtualenv without force exits 2, an existing
destination tar exits 9, a missing agent configuration exits 3, and a
post-install validation failure exits 10. -/
theorem c7_distinct_exit_codes :
    (∀ (config : Config) (dry no_validate : Bool) (env : Env),
        env.distroOk = true → env.venvIsDir = true →
        create config false dry no_validate env
          = ⟨[], Outcome.exited 2⟩)
    ∧ (∀ (config : Config) (force dry no_validate : Bool) (env : Env),
        env.distroOk = true → (env.venvIsDir = true → force = true) →
        ((env.tarIsFile = true ∧ force = false) ∨
         env.tarExistsOther = true) →
        create config force dry no_validate env
          = ⟨[], Outcome.exited 9⟩)
    ∧ (∀ (config : Config) (force dry no_validate : Bool) (env : Env),
        env.distroOk = true → (env.venvIsDir = true → force = true) →
        ¬ ((env.tarIsFile = true ∧ force = false) ∨
           env.tarExistsOther = true) →
        config.cloudify_agent_module = none →
        config.cloudify_agent_version = none →
        create config force dry no_validate env
          = ⟨[], Outcome.exited 3⟩)
    ∧ (∀ (config : Config) (force : Bool) (env : Env)
         (modules : Modules),
        env.distroOk = true → (env.venvIsDir = true → force = true) →
        ¬ ((env.tarIsFile = true ∧ force = false) ∨
           env.tarExistsOther = true) →
        _merge_modules ⟨[], [], some ""⟩ config = Except.ok modules →
        _validate_failed modules env.listingAtValidation ≠ [] →
        (create config force false false env).outcome
          = Outcome.exited 10)
    ∧ ((2 : Nat) ≠ 9 ∧ (2 : Nat) ≠ 3 ∧ (2 : Nat) ≠ 10
       ∧ (9 : Nat) ≠ 3 ∧ (9 : Nat) ≠ 10 ∧ (3 : Nat) ≠ 10) := by
  refine ⟨?_, ?_, ?_, ?_, by decide⟩
  · intro config dry no_validate env hd hv
    have hd2 : ¬ (env.distroOk = false) := by
      rw [hd]
      exact Bool.true_eq_false.mp
    unfold create
    rw [if_neg hd2, if_pos ⟨hv, rfl⟩]
  · intro config force dry no_validate env hd hvenv ht
    have hv2 : ¬ (env.venvIsDir = true ∧ force = false) := by
      rintro ⟨ha, hb⟩
      rw [hvenv ha] at hb
      exact Bool.true_eq_false.mp hb
    have hd2 : ¬ (env.distroOk = false) := by
      rw [hd]
      exact Bool.true_eq_false.mp
    unfold create
    rw [if_neg hd2, if_neg hv2, if_pos ht]
  · intro config force dry no_validate env hd hvenv ht hm hv
    exact create_missing_agent_exit config force dry no_validate env
      hm hv hd hvenv ht
  · intro config force env modules hd hvenv ht hmerge hfail
    have hv2 : ¬ (env.venvIsDir = true ∧ force = false) := by
      rintro ⟨ha, hb⟩
      rw [hvenv ha] at hb
      exact Bool.true_eq_false.mp hb
    have hd2 : ¬ (env.distroOk = false) := by
      rw [hd]
      exact Bool.true_eq_false.mp
    unfold create
    rw [if_neg hd2, if_neg hv2, if_neg ht, hmerge]
    dsimp only
    rw [if_neg Bool.false_ne_true, if_pos ⟨rfl, hfail⟩]

/-- Claim C7, witness: each of the four fatal conditions evaluated on a
concrete run, using the theorem, yields its distinct exit code. -/
theorem c7_distinct_exit_codes_witness :
    create { } false false false { venvIsDir := true }
      = ⟨[], Outcome.exited 2⟩
    ∧ create { } false false false { tarIsFile := true }
      = ⟨[], Outcome.exited 9⟩
    ∧ create { } false false false { } = ⟨[], Outcome.exited 3⟩
    ∧ (create { additional_modules := ["missing_mod"],
                cloudify_agent_module := some "x" }
        false false false { }).outcome = Outcome.exited 10 :=
  ⟨c7_distinct_exit_codes.1 { } false false { venvIsDir := true } rfl rfl,
   c7_distinct_exit_codes.2.1 { } false false false { tarIsFile := true }
     rfl (fun h => by cases h) (by decide),
   c7_distinct_exit_codes.2.2.1 { } false false false { }
     rfl (fun h => h) (by decide) rfl rfl,
   c7_distinct_exit_codes.2.2.2.1
     { additional_modules := ["missing_mod"],
       cloudify_agent_module := some "x" }
     false { } ⟨[], ["missing_mod"], some "x"⟩
     rfl (fun h => h) (by decide) rfl (by decide)⟩

/-- Claim C8: validation is a pure function of the plan and the installed
listing, so two validation runs against environments whose listings are
equal return the same failed list and the same outcome. -/
theorem c8_validate_idempotent (modules : Modules) (l₁ l₂ : String)
    (h : l₁ = l₂) :
    _validate_failed modules l₁ = _validate_failed modules l₂
    ∧ _validate modules l₁ = _validate modules l₂ := by
  subst h
  exact ⟨rfl, rfl⟩

/-- Claim C8, witness: the idempotence theorem applied at a concrete plan
and a repeated concrete listing. -/
theorem c8_validate_idempotent_witness :
    _validate_failed ⟨[], [], some "a"⟩ "cloudify-agent==1"
      = _validate_failed ⟨[], [], some "a"⟩ "cloudify-agent==1"
    ∧ _validate ⟨[], [], some "a"⟩ "cloudify-agent==1"
      = _validate ⟨[], [], some "a"⟩ "cloudify-agent==1" :=
  c8_validate_idempotent ⟨[], [], some "a"⟩ "cloudify-agent==1"
    "cloudify-agent==1" rfl

/-- Claim C10: a core_modules key outside the fixed catalog is still
merged into the core mapping; when its value is truthy and not the
exclude sentinel it is checked by validation (and fails the run when the
listing does not contain it); yet every event of the catalog install pass
comes from a MODULES_LIST slot, so the non-catalog key is never installed
by that pass. -/
theorem c10_noncatalog_key (config : Config) (k v : String)
    (modules : Modules)
    (hnd : (config.core_modules.map Prod.fst).Nodup)
    (hkv : (k, v) ∈ config.core_modules)
    (_hk : k ∉ MODULES_LIST) (hv1 : v ≠ "") (hv2 : v ≠ "exclude")
    (hmerge : _merge_modules ⟨[], [], some ""⟩ config
        = Except.ok modules) :
    modules.core.lookup k = some v
    ∧ (∀ listing, check_installed (get_module_name k) listing = false →
        get_module_name k ∈ _validate_failed modules listing
        ∧ _validate modules listing = Except.error 10)
    ∧ (∀ e ∈ installCoreEvents modules.core,
        ∃ m, m ∈ MODULES_LIST ∧ ∃ s, modules.core.lookup m = some s
          ∧ e = Event.install s)
    ∧ ((∀ m ∈ MODULES_LIST, modules.core.lookup m ≠ some v) →
        Event.install v ∉ installCoreEvents modules.core) := by
  have hcore := merge_core_eq config modules hnd hmerge
  have hprov : ∀ e ∈ installCoreEvents modules.core,
      ∃ m, m ∈ MODULES_LIST ∧ ∃ s, modules.core.lookup m = some s
        ∧ e = Event.install s := by
    intro e he
    unfold installCoreEvents at he
    rw [List.mem_filterMap] at he
    obtain ⟨m, hm, hstep⟩ := he
    refine ⟨m, hm, ?_⟩
    unfold coreInstallStep at hstep
    cases hlk : modules.core.lookup m with
    | none =>
      rw [hlk] at hstep
      exact absurd hstep (by simp)
    | some s =>
      rw [hlk] at hstep
      dsimp only at hstep
      split_ifs at hstep with h1 h2
      exact ⟨s, rfl, (Option.some.inj hstep).symm⟩
  refine ⟨?_, ?_, hprov, ?_⟩
  · rw [hcore]
    exact lookup_of_mem_nodup config.core_modules k v hnd hkv
  · intro listing hchk
    have hmem : get_module_name k ∈ _validate_failed modules listing := by
      rw [validate_failed_eq]
      apply List.mem_append_left
      apply List.mem_append_left
      rw [List.mem_filterMap]
      refine ⟨(k, v), ?_, ?_⟩
      · rw [hcore]
        exact hkv
      · rw [coreCheckOpt_eq_some_iff]
        exact ⟨⟨hv1, hv2⟩, rfl, hchk⟩
    have hne : _validate_failed modules listing ≠ [] := by
      intro hemp
      rw [hemp] at hmem
      exact absurd hmem (by simp)
    refine ⟨hmem, ?_⟩
    unfold _validate
    rw [if_neg hne]
  · intro hno he
    obtain ⟨m, hm, s, hlk, hinst⟩ := hprov (Event.install v) he
    exact hno m hm ((Event.install.inj hinst) ▸ hlk)

/-- Claim C10, witness: a concrete configuration carrying the non-catalog
key left_pad with a location value merges it into the core mapping. -/
theorem c10_noncatalog_key_witness :
    (⟨[("left_pad", "http://lp")], [], some "x"⟩ : Modules).core.lookup
        "left_pad" = some "http://lp" :=
  (c10_noncatalog_key
    { core_modules := [("left_pad", "http://lp")],
      additional_modules := [],
      cloudify_agent_module := some "x",
      cloudify_agent_version := none }
    "left_pad" "http://lp" ⟨[("left_pad", "http://lp")], [], some "x"⟩
    (by decide) (by decide) (by decide) (by decide) (by decide) rfl).1

end AgentPackager
